import Mathlib

/-!
Verification development for the copilot-cli core: the environment record
store (`package config`), the workload template composition engine
(`package template`) and the `env init` provisioning orchestrator
(`package cli`, file `env_init.go`).

Go code is embedded shallowly: pure Go functions become Lean functions,
stateful store operations become explicit state passing, and external
collaborators (SSM, EC2, IAM, CloudFormation, prompts) become oracle
records supplied as arguments.  Error returns become `Except`.
-/

namespace Copilot

/-! ## Model of Go `fmt.Sprintf` for the `%s` verb

All format strings in the embedded code use only the `%s` verb, so we model
`fmt.Sprintf` as positional substitution of string arguments into the
pattern.  A `%s` with no argument left renders Go's `%!s(MISSING)` marker. -/

/-- Substitutes `%s` verbs in a character list by the positional arguments. -/
def fmtChars : List Char → List String → String
  | [], _ => ""
  | '%' :: 's' :: rest, a :: args => a ++ fmtChars rest args
  | '%' :: 's' :: rest, [] => "%!s(MISSING)" ++ fmtChars rest []
  | c :: rest, args => String.singleton c ++ fmtChars rest args

/-- Model of Go `fmt.Sprintf` restricted to the `%s` verb. -/
def sprintf (pattern : String) (args : List String) : String :=
  fmtChars pattern.data args

/-- Model of Go `aws.StringValue`: dereference a `*string`, `""` when nil. -/
def stringValue (s : Option String) : String := s.getD ""

/-! ## `package config`: environment records and the SSM-backed store -/

/-- `config.ImportVPC` (src/unnamed/part_000:47): identifiers of existing
VPC resources to import. -/
structure ImportVPC where
  ID : String
  PublicSubnetIDs : List String
  PrivateSubnetIDs : List String
deriving DecidableEq

/-- `config.AdjustVPC` (src/unnamed/part_000:54): generation parameters for
default VPC resources. -/
structure AdjustVPC where
  CIDR : String
  AZs : List String
  PublicSubnetCIDRs : List String
  PrivateSubnetCIDRs : List String
deriving DecidableEq

/-- `config.CustomizeEnv` (src/unnamed/part_000:30): custom environment
config; Go pointers become `Option`. -/
structure CustomizeEnv where
  ImportVPC : Option ImportVPC
  VPCConfig : Option AdjustVPC
deriving DecidableEq

/-- `config.NewCustomizeEnv` (src/unnamed/part_000:36): returns nil when both
arguments are nil, otherwise wraps them. -/
def NewCustomizeEnv (importVPC : Option ImportVPC) (adjustVPC : Option AdjustVPC) :
    Option CustomizeEnv :=
  if importVPC = none ∧ adjustVPC = none then none
  else some { ImportVPC := importVPC, VPCConfig := adjustVPC }

/-- `config.Environment` (src/unnamed/part_000:17): a deployment environment
record. -/
structure Environment where
  App : String
  Name : String
  Region : String
  AccountID : String
  Prod : Bool
  RegistryURL : String
  ExecutionRoleARN : String
  ManagerRoleARN : String
  CustomConfig : Option CustomizeEnv
deriving DecidableEq

/-- Modelled from the spec: the storage key is "derived deterministically from
`(app, name)`" (spec section 6).  The concrete `fmtEnvParamPath` format string
lives in a `package config` file outside `src/`; the derivation below keeps the
determinism and injectivity of the real path scheme. -/
def envParamPath (app name : String) : String :=
  "/copilot/applications/" ++ app ++ "/environments/" ++ name

/-- State of the store: the set of existing application names together with the
SSM parameters written so far.  Modelled from the spec: records are JSON
documents keyed by the parameter path (spec section 6); serialization
(`marshal`, outside `src/`) is modelled as the record itself, an injective
encoding. -/
structure StoreState where
  apps : List String
  params : List (String × Environment)
deriving DecidableEq

/-- Failure modes of SSM `PutParameter` relevant to the embedded code: without
an overwrite flag, SSM rejects a write to an existing name with
`ParameterAlreadyExists`. -/
inductive SSMPutErr
  | parameterAlreadyExists
deriving DecidableEq

/-- Model of the SSM `PutParameter` call made by `Store.CreateEnvironment`:
appends a fresh parameter, or fails with `ParameterAlreadyExists` when the
name is already present. -/
def putParameter (ps : List (String × Environment)) (name : String) (v : Environment) :
    Except SSMPutErr (List (String × Environment)) :=
  if ps.any (fun p => p.1 == name) then .error .parameterAlreadyExists
  else .ok (ps ++ [(name, v)])

/-- Errors surfaced by `Store.CreateEnvironment` in the model. -/
inductive CreateEnvErr
  | noSuchApplication (app : String)
deriving DecidableEq

/-- `Store.CreateEnvironment` (src/unnamed/part_000:63): verifies the owning
application exists (`GetApplication`, outside `src/`, modelled from the spec as
membership in the application list), then writes the serialized record;
an `ErrCodeParameterAlreadyExists` from SSM is suppressed and the call
returns nil without touching the stored record. -/
def createEnvironment (st : StoreState) (e : Environment) : Except CreateEnvErr StoreState :=
  if st.apps.contains e.App then
    match putParameter st.params (envParamPath e.App e.Name) e with
    | .ok ps => .ok { st with params := ps }
    | .error .parameterAlreadyExists => .ok st
  else .error (.noSuchApplication e.App)

/-! ### Go `sort.SliceStable`

Go's `sort.SliceStable` (`stable_func` in the runtime's sort package) insertion
sorts blocks of 20 elements and then merges adjacent blocks with `symMerge`;
for a slice of at most 20 elements it performs exactly one insertion-sort pass
over the whole slice, and for a comparator satisfying the `sort.Interface`
contract its output on any length is the unique stable order.  We embed the
insertion-sort pass (`insertionSort_func`): the element at index `i` is swapped
leftwards while `less(j, j-1)` holds for its current index `j`.  Every theorem
below applies the sort to slices of at most 20 elements, where this embedding
is exact even for comparators that break the `sort.Interface` contract. -/

/-- One insertion step of Go `insertionSort_func`: the reversed already-sorted
prefix is scanned from its rightmost element, swapping `x` leftwards while
`less x y` holds for the element `y` currently left of `x`. -/
def goInsertAux {α : Type} (less : α → α → Bool) (x : α) : List α → List α
  | [] => [x]
  | y :: ys => if less x y then y :: goInsertAux less x ys else x :: y :: ys

/-- Go `sort.SliceStable` as executed on slices of at most 20 elements: a
single `insertionSort_func` pass, folded over the slice with the reversed
prefix as accumulator. -/
def sliceStable {α : Type} (less : α → α → Bool) (l : List α) : List α :=
  (l.foldl (fun racc x => goInsertAux less x racc) []).reverse

/-- Go string comparison `a < b`: byte-wise lexicographic order, embedded as
lexicographic order on the codepoint list (UTF-8 byte order and codepoint
order coincide).  Lean's `String.lt` is definitionally the same order. -/
def goStringLt (a b : String) : Bool := decide (a.data < b.data)

/-- `Store.ListEnvironments` (src/unnamed/part_000:122) after deserialization:
the two `sort.SliceStable` calls of lines 139-140, first by name ascending,
then with the comparator `!environments[i].Prod` (which ignores its second
argument).  Listing and unmarshalling (`listParams`, outside `src/`) are
modelled by taking the decoded records as input. -/
def listEnvironments (envs : List Environment) : List Environment :=
  let byName := sliceStable (fun a b => goStringLt a.Name b.Name) envs
  sliceStable (fun a _ => !a.Prod) byName

/-! ## `package template`: workload template composition (src/unnamed/part_001) -/

/-- AWS VPC networking configuration constants (src/unnamed/part_001:38). -/
def PublicSubnetsPlacement : String := "PublicSubnets"

/-- Private-subnet placement constant (src/unnamed/part_001:42). -/
def PrivateSubnetsPlacement : String := "PrivateSubnets"

/-- `snsARNPattern` (src/unnamed/part_001:56): the fixed positional pattern for
publish/subscribe topic ARNs. -/
def snsARNPattern : String := "arn:%s:sns:%s:%s:%s-%s-%s-%s"

/-- `fmtWkldCFTemplatePath` (src/unnamed/part_001:21): path of a workload base
template under templates/workloads/. -/
def fmtWkldCFTemplatePath : String := "workloads/%s/%s/cf.yml"

/-- Path format of workload template fragments (src/unnamed/part_001:22, source
identifier `fmtWkldPartialsCFTemplatePath`, renamed here for lexical reasons). -/
def fmtWkldFragmentsCFTemplatePath : String := "workloads/partials/cf/%s.yml"

/-- The fixed catalog of fragment names merged into every workload template
(src/unnamed/part_001:61, source identifier
`partialsWorkloadCFTemplateNames`, renamed here for lexical reasons). -/
def workloadCFTemplateFragmentNames : List String :=
  ["loggroup", "envvars-container", "envvars-common", "secrets", "executionrole", "taskrole",
   "workload-container", "fargate-taskdef-base-properties", "service-base-properties",
   "servicediscovery", "addons", "sidecars", "logconfig", "autoscaling", "eventrule",
   "state-machine", "state-machine-definition.json", "efs-access-point", "env-controller",
   "mount-points", "volumes", "image-overrides", "instancerole", "accessrole", "publish",
   "subscribe", "nlb", "vpc-connector"]

/-- `template.ManagedVolumeCreationInfo` (src/unnamed/part_001:167). -/
structure ManagedVolumeCreationInfo where
  Name : Option String
  DirName : Option String
  UID : Option Nat
  GID : Option Nat
deriving DecidableEq

/-- `template.EFSVolumeConfiguration` (src/unnamed/part_001:175). -/
structure EFSVolumeConfiguration where
  Filesystem : Option String
  RootDirectory : Option String
  AccessPointID : Option String
  IAM : Option String
deriving DecidableEq

/-- `template.Volume` (src/unnamed/part_001:160). -/
structure Volume where
  Name : Option String
  EFS : Option EFSVolumeConfiguration
deriving DecidableEq

/-- `template.MountPoint` (src/unnamed/part_001:153). -/
structure MountPoint where
  ContainerPath : Option String
  ReadOnly : Option Bool
  SourceVolume : Option String
deriving DecidableEq

/-- `template.EFSPermission` (src/unnamed/part_001:146). -/
structure EFSPermission where
  FilesystemID : Option String
  Write : Bool
  AccessPointID : Option String
deriving DecidableEq

/-- `template.StorageOpts` (src/unnamed/part_001:132). -/
structure StorageOpts where
  Ephemeral : Option Int
  Volumes : List Volume
  MountPoints : List MountPoint
  EFSPerms : List EFSPermission
  ManagedVolumeInfo : Option ManagedVolumeCreationInfo
deriving DecidableEq

/-- `StorageOpts.requiresEFSCreation` (src/unnamed/part_001:141): true iff
managed volume information is specified. -/
def StorageOpts.requiresEFSCreation (s : StorageOpts) : Bool :=
  s.ManagedVolumeInfo.isSome

/-- `template.NetworkOpts` (src/unnamed/part_001:330). -/
structure NetworkOpts where
  AssignPublicIP : String
  SubnetsType : String
  SecurityGroups : List String
deriving DecidableEq

/-- `template.WorkloadOpts` (src/unnamed/part_001:368), restricted to the
fields read by the embedded functions (`envControllerParameters` reads
`WorkloadType`, `Network` and `Storage`); the remaining fields of the source
structure are pure template data that none of the embedded functions inspect. -/
structure WorkloadOpts where
  WorkloadType : String
  Network : NetworkOpts
  Storage : Option StorageOpts
deriving DecidableEq

/-- `envControllerParameters` (src/unnamed/part_001:530): the conditional
parameter names for the EnvController template, appended in the fixed order
load-balancer names, networking name, storage name. -/
def envControllerParameters (o : WorkloadOpts) : List String :=
  let parameters : List String := []
  let parameters := if o.WorkloadType == "Load Balanced Web Service" then
    parameters ++ ["ALBWorkloads,", "Aliases,"] else parameters
  let parameters := if o.Network.SubnetsType == PrivateSubnetsPlacement then
    parameters ++ ["NATWorkloads,"] else parameters
  let parameters := match o.Storage with
    | some s => if s.requiresEFSCreation then parameters ++ ["EFSWorkloads,"] else parameters
    | none => parameters
  parameters

/-- `template.Topic` (src/unnamed/part_001:282). -/
structure Topic where
  Name : Option String
  Region : String
  Partition : String
  AccountID : String
  App : String
  Env : String
  Svc : String
deriving DecidableEq

/-- `Topic.ARN` (src/unnamed/part_001:554): interpolates the seven fields into
`snsARNPattern` positionally. -/
def Topic.ARN (t : Topic) : String :=
  sprintf snsARNPattern
    [t.Partition, t.Region, t.AccountID, t.App, t.Env, t.Svc, stringValue t.Name]

/-- `template.Content` (defined in another file of package template, outside
`src/`): the opaque result object wrapping the rendered bytes. -/
structure Content where
  buf : String
deriving DecidableEq

/-- Collaborator interface for the Go `text/template` operations used by
`Template.parseWkld`: `parse` is `Template.parse` (defined in another file of
package template, outside `src/`), which loads one named template file from
the embedded filesystem and parses it; `tree`, `addParseTree` and `execute`
are the `text/template` library calls made in `parseWkld`.  `Tpl` and `Tree`
stand for `*template.Template` and `*parse.Tree`. -/
structure TplOracle (Tpl Tree : Type) where
  parse : String → String → Except String Tpl
  tree : Tpl → Tree
  addParseTree : Tpl → String → Tree → Except String Tpl
  execute : Tpl → Except String String

/-- The fragment-attachment loop of `Template.parseWkld`
(src/unnamed/part_001:474-483): parse each catalog fragment and add its parse
tree to the base template, aborting on the first failure. -/
def parseWkldLoop {Tpl Tree : Type} (or : TplOracle Tpl Tree) (tpl : Tpl) :
    List String → Except String Tpl
  | [] => .ok tpl
  | templateName :: rest =>
    match or.parse templateName (sprintf fmtWkldFragmentsCFTemplatePath [templateName]) with
    | .error e => .error e
    | .ok nestedTpl =>
      match or.addParseTree tpl templateName (or.tree nestedTpl) with
      | .error e => .error ("add parse tree of " ++ templateName ++ " to base template: " ++ e)
      | .ok tpl2 => parseWkldLoop or tpl2 rest

/-- `Template.parseWkld` (src/unnamed/part_001:469): parse the base template,
attach every catalog fragment, then execute the composed template with the
data object (`dataFmt` is the `%v` rendering of the data used in the error
message). -/
def parseWkld {Tpl Tree : Type} (name wkldDirName dataFmt : String)
    (or : TplOracle Tpl Tree) : Except String Content :=
  match or.parse "base" (sprintf fmtWkldCFTemplatePath [wkldDirName, name]) with
  | .error e => .error e
  | .ok tpl =>
    match parseWkldLoop or tpl workloadCFTemplateFragmentNames with
    | .error e => .error e
    | .ok tpl2 =>
      match or.execute tpl2 with
      | .error e => .error ("execute template " ++ name ++ " with data " ++ dataFmt ++ ": " ++ e)
      | .ok out => .ok { buf := out }

/-! ## `package cli`: the `env init` command (src/internal/pkg/cli/env_init.go) -/

/-- Rendering of the zero `net.IPNet` by its `String()` method: Go renders the
zero value as `<nil>`.  This is the `emptyIPNet` comparison value (defined in
the cli package's flag file, outside `src/`); `net.IPNet` fields are modelled
throughout by their `String()` rendering. -/
def emptyIPNetString : String := "<nil>"

/-- `importVPCVars` (env_init.go:82).  The subnet-identifier slices are
`Option` so that a nil slice (flag never set) is distinguished from a set
slice, matching the `== nil` checks in `askImportResources`. -/
structure importVPCVars where
  ID : String
  PublicSubnetIDs : Option (List String)
  PrivateSubnetIDs : Option (List String)
deriving DecidableEq

/-- `importVPCVars.isSet` (env_init.go:88). -/
def importVPCVars.isSet (v : importVPCVars) : Bool :=
  if v.ID != "" then true
  else decide (0 < (v.PublicSubnetIDs.getD []).length) ||
    decide (0 < (v.PrivateSubnetIDs.getD []).length)

/-- `adjustVPCVars` (env_init.go:95); the `net.IPNet` CIDR is modelled by its
`String()` rendering. -/
structure adjustVPCVars where
  CIDR : String
  AZs : Option (List String)
  PublicSubnetCIDRs : Option (List String)
  PrivateSubnetCIDRs : Option (List String)
deriving DecidableEq

/-- `adjustVPCVars.isSet` (env_init.go:102). -/
def adjustVPCVars.isSet (v : adjustVPCVars) : Bool :=
  if v.CIDR != emptyIPNetString then true
  else [v.AZs, v.PublicSubnetCIDRs, v.PrivateSubnetCIDRs].any
    (fun arr => (arr.getD []).length != 0)

/-- `tempCredsVars` (env_init.go:114). -/
structure tempCredsVars where
  AccessKeyID : String
  SecretAccessKey : String
  SessionToken : String
deriving DecidableEq

/-- `tempCredsVars.isSet` (env_init.go:120). -/
def tempCredsVars.isSet (v : tempCredsVars) : Bool :=
  v.AccessKeyID != "" && v.SecretAccessKey != ""

/-- `initEnvVars` (env_init.go:124): the flag values of `env init`. -/
structure initEnvVars where
  appName : String
  name : String
  profile : String
  isProduction : Bool
  defaultConfig : Bool
  importVPC : importVPCVars
  adjustVPC : adjustVPCVars
  tempCreds : tempCredsVars
  region : String
deriving DecidableEq

/-- `initEnvOpts.validateCustomizedResources` (env_init.go:335).  The source's
nested ifs inside the `isSet()` blocks are flattened into guarded conditions;
the flag name `default-config` interpolated into the second message is the
`defaultConfigFlag` constant (outside `src/`). -/
def validateCustomizedResources (o : initEnvVars) : Except String Unit :=
  if o.importVPC.isSet && o.adjustVPC.isSet then
    .error "cannot specify both import vpc flags and configure vpc flags"
  else if (o.importVPC.isSet || o.adjustVPC.isSet) && o.defaultConfig then
    .error "cannot import or configure vpc if --default-config is set"
  else if o.importVPC.isSet && (o.importVPC.PublicSubnetIDs.getD []).length == 1 then
    .error "at least two public subnets must be imported to enable Load Balancing"
  else if o.importVPC.isSet && (o.importVPC.PrivateSubnetIDs.getD []).length == 1 then
    .error "at least two private subnets must be imported"
  else if o.adjustVPC.isSet && (o.adjustVPC.AZs.getD []).length == 1 then
    .error "at least two availability zones must be provided to enable Load Balancing"
  else .ok ()

/-- `initEnvOpts.validateCredentials` (env_init.go:710); the flag-name
constants interpolated into the messages live outside `src/`. -/
def validateCredentials (o : initEnvVars) : Except String Unit :=
  if o.profile != "" && o.tempCreds.AccessKeyID != "" then
    .error "cannot specify both --profile and --aws-access-key-id"
  else if o.profile != "" && o.tempCreds.SecretAccessKey != "" then
    .error "cannot specify both --profile and --aws-secret-access-key"
  else if o.profile != "" && o.tempCreds.SessionToken != "" then
    .error "cannot specify both --profile and --aws-session-token"
  else .ok ()

/-- `initEnvOpts.importVPCConfig` (env_init.go:624). -/
def importVPCConfig (o : initEnvVars) : Option ImportVPC :=
  if o.defaultConfig || !o.importVPC.isSet then none
  else some { ID := o.importVPC.ID,
              PrivateSubnetIDs := o.importVPC.PrivateSubnetIDs.getD [],
              PublicSubnetIDs := o.importVPC.PublicSubnetIDs.getD [] }

/-- `initEnvOpts.adjustVPCConfig` (env_init.go:635). -/
def adjustVPCConfig (o : initEnvVars) : Option AdjustVPC :=
  if o.defaultConfig || !o.adjustVPC.isSet then none
  else some { CIDR := o.adjustVPC.CIDR,
              AZs := o.adjustVPC.AZs.getD [],
              PrivateSubnetCIDRs := o.adjustVPC.PrivateSubnetCIDRs.getD [],
              PublicSubnetCIDRs := o.adjustVPC.PublicSubnetCIDRs.getD [] }

/-- `initEnvOpts.Validate` (env_init.go:206).  `validateEnvironmentName`
(outside `src/`) is the oracle `nameOK`; `validateDuplicateEnv`
(env_init.go:604, a store lookup) is the oracle `dupCheck`. -/
def validateEnvInit (o : initEnvVars) (nameOK : String → Except String Unit)
    (dupCheck : Except String Unit) : Except String Unit :=
  match (if o.name != "" then
          match nameOK o.name with
          | .error e => Except.error e
          | .ok _ => dupCheck
         else Except.ok ()) with
  | .error e => .error e
  | .ok _ =>
    match validateCustomizedResources o with
    | .error e => .error e
    | .ok _ => validateCredentials o

/-- Modelled from the spec: the command runner invokes `Validate` before `Ask`
and `Execute` ("Mutually exclusive groups enforced at validation", spec
section 6; the runner `cli.run` lives outside `src/`).  Everything after
validation, including the orchestrator, is abstracted as the continuation
`rest`. -/
def runEnvInit (o : initEnvVars) (nameOK : String → Except String Unit)
    (dupCheck : Except String Unit) (rest : Except String Unit) : Except String Unit :=
  match validateEnvInit o nameOK dupCheck with
  | .error e => .error e
  | .ok _ => rest

/-- Outcome of `selector.Subnets` as observed by `askImportResources`:
`selector.ErrSubnetsNotFound` (outside `src/`, message "no subnets found") or
another failure, else the selected subnet ids. -/
inductive SubnetSelErr
  | notFound
  | other (msg : String)
deriving DecidableEq

/-- Outcome of `selector.VPC`: `selector.ErrVPCNotFound` (outside `src/`,
message "no VPC found") or another failure. -/
inductive VPCSelErr
  | vpcNotFound
  | other (msg : String)
deriving DecidableEq

/-- Error text of a VPC-selection failure. -/
def vpcSelErrMsg : VPCSelErr → String
  | .vpcNotFound => "no VPC found"
  | .other m => m

/-- Error text of a subnet-selection failure. -/
def subnetSelErrMsg : SubnetSelErr → String
  | .notFound => "no subnets found"
  | .other m => m

/-- Collaborators of `askImportResources`: the EC2 selector prompts and the
EC2 DNS-support lookup. -/
structure EnvSelOracles where
  selectVPC : Except VPCSelErr String
  hasDNSSupport : String → Except String Bool
  publicSubnets : Except SubnetSelErr (List String)
  privateSubnets : Except SubnetSelErr (List String)

/-- Warnings logged by `askImportResources`. -/
inductive EnvInitWarning
  | noSubnetsFoundInVPC (vpcID : String)
deriving DecidableEq

/-- `initEnvOpts.askImportResources` (env_init.go:454): select a VPC id when
absent, require DNS support on it, then select public subnets (a not-found
outcome degrades to a warning and a nil assignment; a selection of exactly one
fails) and private subnets (a not-found outcome and fewer than two selections
both fail).  Returns the updated flag values and the warnings logged. -/
def askImportResources (v : importVPCVars) (or : EnvSelOracles) :
    Except String importVPCVars × List EnvInitWarning :=
  match (if v.ID == "" then
          match or.selectVPC with
          | .error e => Except.error ("select VPC: " ++ vpcSelErrMsg e)
          | .ok id => Except.ok id
         else Except.ok v.ID) with
  | .error e => (.error e, [])
  | .ok vpcID =>
    match or.hasDNSSupport vpcID with
    | .error e => (.error ("check if VPC " ++ vpcID ++ " has DNS support enabled: " ++ e), [])
    | .ok false => (.error ("VPC " ++ vpcID ++ " has no DNS support enabled"), [])
    | .ok true =>
      match (match v.PublicSubnetIDs with
             | some ps => (Except.ok (some ps), ([] : List EnvInitWarning))
             | none =>
               match or.publicSubnets with
               | .error .notFound => (.ok none, [.noSubnetsFoundInVPC vpcID])
               | .error (.other e) => (.error ("select public subnets: " ++ e), [])
               | .ok l =>
                 if l.length == 1 then
                   (.error "select public subnets: at least two public subnets must be selected to enable Load Balancing", [])
                 else (.ok (some l), [])) with
      | (.error e, _) => (.error e, [])
      | (.ok pub, w1) =>
        match v.PrivateSubnetIDs with
        | some ps =>
          (.ok { v with ID := vpcID, PublicSubnetIDs := pub, PrivateSubnetIDs := some ps }, w1)
        | none =>
          match or.privateSubnets with
          | .error e => (.error ("select private subnets: " ++ subnetSelErrMsg e), w1)
          | .ok l =>
            if l.length < 2 then
              (.error "select private subnets: at least two private subnets must be selected", w1)
            else
              (.ok { v with ID := vpcID, PublicSubnetIDs := pub, PrivateSubnetIDs := some l }, w1)

/-- `config.Application` (package config, outside `src/`), restricted to the
fields `Execute` and `deployEnv` read; `RequiresDNS` models the
`RequiresDNSDelegation()` predicate ("the application declares a requirement
for DNS delegation", spec section 4.5). -/
structure Application where
  Name : String
  AccountID : String
  Domain : String
  Tags : List (String × String)
  RequiresDNS : Bool
deriving DecidableEq

/-- `identity.Caller` (outside `src/`): the authenticated account and its root
principal ARN. -/
structure Caller where
  Account : String
  RootUserARN : String
deriving DecidableEq

/-- Modelled from the spec: `stack.NameForEnv` (outside `src/`), the pure
deterministic stack-name derivation from `(application, environment)` (spec
section 3, "Stack Descriptors"). -/
def nameForEnv (app env : String) : String := app ++ "-" ++ env

/-- Modelled from the spec: `deploy.EnvTagKey` (outside `src/`), the tag key
marking IAM roles created by this tool for a specific environment. -/
def envTagKey : String := "copilot-environment"

/-- The two deterministically named IAM roles of an environment
(env_init.go:745-748). -/
def envRoleNames (app env : String) : List String :=
  [sprintf "%s-CFNExecutionRole" [nameForEnv app env],
   sprintf "%s-EnvManagerRole" [nameForEnv app env]]

/-- `deploy.AppInformation` (package deploy, outside `src/`), as populated at
env_init.go:654. -/
structure AppInformation where
  Name : String
  DNSName : String
  AccountPrincipalARN : String
deriving DecidableEq

/-- `deploy.CreateEnvironmentInput` (package deploy, outside `src/`),
restricted to the fields populated at env_init.go:652. -/
structure CreateEnvironmentInput where
  Name : String
  App : AppInformation
  Prod : Bool
  AdditionalTags : List (String × String)
  CustomResourcesURLs : List (String × String)
  AdjustVPCConfig : Option AdjustVPC
  ImportVPCConfig : Option ImportVPC
  Version : String
deriving DecidableEq

/-- Modelled from the spec: `deploy.LatestEnvTemplateVersion` (outside
`src/`), an opaque version string. -/
def LatestEnvTemplateVersion : String := "latest"

/-- Response of the deployer's `DeployAndRenderEnvironment`: success, the
`cloudformation.ErrStackAlreadyExists` condition, or another failure. -/
inductive DeployOutcome
  | success
  | stackAlreadyExists
  | failure (msg : String)
deriving DecidableEq

/-- External calls observable during `deployEnv`, in order. -/
inductive EnvInitEvent
  | existsCheck (stackName : String)
  | listRoleTags (roleName : String)
  | deleteRole (roleName : String)
  | deployAttempt
deriving DecidableEq

/-- Collaborators of `deployEnv`: the identity service, the CloudFormation
stack-existence check, the IAM role-tag listing and the deployer. -/
structure EnvDeployOracles where
  identityGet : Except String Caller
  stackExists : Except String Bool
  roleTags : String → Except String (List String)
  deployAndRender : CreateEnvironmentInput → DeployOutcome

/-- A role counts as tagged when listing its tags succeeds and the tag keys
contain `envTagKey` (env_init.go:750-756). -/
def roleIsTagged (or : EnvDeployOracles) (roleName : String) : Bool :=
  match or.roleTags roleName with
  | .error _ => false
  | .ok tags => tags.contains envTagKey

/-- `initEnvOpts.tryDeletingEnvRoles` (env_init.go:744): per role, list its
tags (skipping the role on failure or missing tag) and delete it when tagged;
the IAM calls are recorded as events, all outcomes are swallowed. -/
def tryDeletingEnvRoles (or : EnvDeployOracles) (app env : String) : List EnvInitEvent :=
  (envRoleNames app env).flatMap (fun roleName =>
    EnvInitEvent.listRoleTags roleName ::
      (if roleIsTagged or roleName then [EnvInitEvent.deleteRole roleName] else []))

/-- `initEnvOpts.cleanUpDanglingRoles` (env_init.go:725): when the stack does
not exist, best-effort delete the tagged environment roles; when it exists,
skip; a failing existence check is wrapped and returned. -/
def cleanUpDanglingRoles (or : EnvDeployOracles) (app env : String) :
    Except String Unit × List EnvInitEvent :=
  match or.stackExists with
  | .error e => (.error ("check if stack " ++ nameForEnv app env ++ " exists: " ++ e),
      [.existsCheck (nameForEnv app env)])
  | .ok true => (.ok (), [.existsCheck (nameForEnv app env)])
  | .ok false => (.ok (), .existsCheck (nameForEnv app env) :: tryDeletingEnvRoles or app env)

/-- `initEnvOpts.deployEnv` (env_init.go:647): build the deployment input,
clean up dangling roles, deploy; a stack-already-exists outcome is success, any
other failure triggers one best-effort tagged-role cleanup pass before the
error is returned. -/
def deployEnv (o : initEnvVars) (or : EnvDeployOracles) (app : Application)
    (customResourcesURLs : List (String × String)) :
    Except String Unit × List EnvInitEvent :=
  match or.identityGet with
  | .error e => (.error ("get identity: " ++ e), [])
  | .ok caller =>
    let deployEnvInput : CreateEnvironmentInput :=
      { Name := o.name,
        App := { Name := o.appName, DNSName := app.Domain,
                 AccountPrincipalARN := caller.RootUserARN },
        Prod := o.isProduction,
        AdditionalTags := app.Tags,
        CustomResourcesURLs := customResourcesURLs,
        AdjustVPCConfig := adjustVPCConfig o,
        ImportVPCConfig := importVPCConfig o,
        Version := LatestEnvTemplateVersion }
    match cleanUpDanglingRoles or o.appName o.name with
    | (.error e, tr) => (.error e, tr)
    | (.ok _, tr) =>
      match or.deployAndRender deployEnvInput with
      | .success => (.ok (), tr ++ EnvInitEvent.deployAttempt :: [])
      | .stackAlreadyExists => (.ok (), tr ++ EnvInitEvent.deployAttempt :: [])
      | .failure msg =>
        (.error msg, tr ++ EnvInitEvent.deployAttempt :: tryDeletingEnvRoles or o.appName o.name)

/-- `initEnvOpts.delegateDNSFromApp` (env_init.go:695): same-account is a
no-op. -/
def delegateDNSFromApp (app : Application) (accountID : String)
    (delegate : Except String Unit) : Except String Unit :=
  if accountID == app.AccountID then .ok () else delegate

/-- Collaborators of `Execute`: the store, the identity services, the app
deployer, the resource getter, the uploader, the deploy collaborators and the
environment deployer. -/
structure EnvExecOracles where
  getApplication : Except String Application
  envIdentityGet : Except String Caller
  delegateDNS : Except String Unit
  addEnvToApp : Except String Unit
  getAppResourcesBucket : Except String String
  newS3 : Except String Unit
  uploadCustomResources : Except String (List (String × String))
  deploy : EnvDeployOracles
  getEnvironment : Except String Environment
  storeCreateEnvironment : Environment → Except String Unit

/-- `initEnvOpts.Execute` (env_init.go:240): existence check, optional DNS
delegation (same-account is a no-op), best-effort service-linked-role creation
(ignored, env_init.go:262), stack-set registration (wrapped as in
`addToStackset`, env_init.go:684), resource lookup, custom-resource upload,
stack deployment, then fetch the deployed environment, stamp the production
flag and custom config onto it and submit it to the store.  Returns the
result, the deploy-phase events and the record submitted to the store (if the
flow got that far). -/
def executeEnvInit (o : initEnvVars) (or : EnvExecOracles) :
    Except String Unit × List EnvInitEvent × Option Environment :=
  match or.getApplication with
  | .error e => (.error e, [], none)
  | .ok app =>
    match or.envIdentityGet with
    | .error e => (.error ("get identity: " ++ e), [], none)
    | .ok envCaller =>
      match (if app.RequiresDNS then
              match delegateDNSFromApp app envCaller.Account or.delegateDNS with
              | .error e => Except.error ("granting DNS permissions: " ++ e)
              | .ok _ => Except.ok ()
             else .ok ()) with
      | .error e => (.error e, [], none)
      | .ok _ =>
        match or.addEnvToApp with
        | .error e =>
          (.error ("deploy env " ++ o.name ++ " to application " ++ app.Name ++ ": " ++ e),
           [], none)
        | .ok _ =>
          match or.getAppResourcesBucket with
          | .error e => (.error ("get app resources: " ++ e), [], none)
          | .ok bucket =>
            match or.newS3 with
            | .error e => (.error e, [], none)
            | .ok _ =>
              match or.uploadCustomResources with
              | .error e =>
                (.error ("upload custom resources to bucket " ++ bucket ++ ": " ++ e), [], none)
              | .ok urls =>
                match deployEnv o or.deploy app urls with
                | (.error e, tr) => (.error e, tr, none)
                | (.ok _, tr) =>
                  match or.getEnvironment with
                  | .error e =>
                    (.error ("get environment struct for " ++ o.name ++ ": " ++ e), tr, none)
                  | .ok env =>
                    let cfg := NewCustomizeEnv (importVPCConfig o) (adjustVPCConfig o)
                    let envStamped : Environment :=
                      { env with Prod := o.isProduction, CustomConfig := cfg }
                    ((match or.storeCreateEnvironment envStamped with
                      | .error e => Except.error ("store environment: " ++ e)
                      | .ok _ => Except.ok ()), tr, some envStamped)

/-- True exactly on the deployer-invocation event. -/
def isDeployAttempt : EnvInitEvent → Bool
  | .deployAttempt => true
  | _ => false

/-- The events recorded after the deployer was invoked. -/
def eventsAfterDeploy (tr : List EnvInitEvent) : List EnvInitEvent :=
  (tr.dropWhile (fun e => !isDeployAttempt e)).drop 1

/-- Number of deletion attempts recorded for a given role name. -/
def countDeleteRole (tr : List EnvInitEvent) (roleName : String) : Nat :=
  tr.countP (fun e => match e with
    | .deleteRole r => r == roleName
    | _ => false)

/-- A concrete `WorkloadOpts`: load-balanced kind, private placement, managed
EFS storage requested. -/
def lbwsPrivateEFSOpts : WorkloadOpts :=
  { WorkloadType := "Load Balanced Web Service",
    Network := { AssignPublicIP := "DISABLED", SubnetsType := PrivateSubnetsPlacement,
                 SecurityGroups := [] },
    Storage := some { Ephemeral := none, Volumes := [], MountPoints := [], EFSPerms := [],
                      ManagedVolumeInfo := some { Name := some "fs", DirName := none,
                                                  UID := none, GID := none } } }

/-- A concrete template oracle whose loader cannot find the "nlb" fragment. -/
def nlbMissingTplOracle : TplOracle Unit Unit :=
  { parse := fun n _ => if n == "nlb" then .error "read template nlb: file does not exist"
      else .ok (),
    tree := fun _ => (),
    addParseTree := fun _ _ _ => .ok (),
    execute := fun _ => .ok "rendered" }

/-- A concrete non-production environment record named "alpha". -/
def envAlpha : Environment :=
  { App := "demo", Name := "alpha", Region := "us-west-2", AccountID := "1111",
    Prod := false, RegistryURL := "", ExecutionRoleARN := "", ManagerRoleARN := "",
    CustomConfig := none }

/-- A concrete non-production environment record named "beta". -/
def envBeta : Environment :=
  { App := "demo", Name := "beta", Region := "us-west-2", AccountID := "1111",
    Prod := false, RegistryURL := "", ExecutionRoleARN := "", ManagerRoleARN := "",
    CustomConfig := none }

/-- Zero value of `importVPCVars`. -/
def emptyImportVPCVars : importVPCVars :=
  { ID := "", PublicSubnetIDs := none, PrivateSubnetIDs := none }

/-- Zero value of `adjustVPCVars` (the zero `net.IPNet` renders as `<nil>`). -/
def emptyAdjustVPCVars : adjustVPCVars :=
  { CIDR := emptyIPNetString, AZs := none, PublicSubnetCIDRs := none,
    PrivateSubnetCIDRs := none }

/-- Zero value of `tempCredsVars`. -/
def emptyTempCredsVars : tempCredsVars :=
  { AccessKeyID := "", SecretAccessKey := "", SessionToken := "" }

/-- Concrete flags with both the import group and the adjust group set. -/
def bothVPCFlagsVars : initEnvVars :=
  { appName := "demo", name := "test", profile := "", isProduction := false,
    defaultConfig := false,
    importVPC := { ID := "vpc-123", PublicSubnetIDs := none, PrivateSubnetIDs := none },
    adjustVPC := { CIDR := "10.0.0.0/16", AZs := none, PublicSubnetCIDRs := none,
                   PrivateSubnetCIDRs := none },
    tempCreds := emptyTempCredsVars, region := "" }

/-- Concrete flags with the default-config flag and an import flag both set. -/
def defaultWithImportVars : initEnvVars :=
  { bothVPCFlagsVars with defaultConfig := true, adjustVPC := emptyAdjustVPCVars }

/-- Concrete flags selecting the default configuration. -/
def defaultCfgVars : initEnvVars :=
  { appName := "demo", name := "test", profile := "", isProduction := false,
    defaultConfig := true, importVPC := emptyImportVPCVars,
    adjustVPC := emptyAdjustVPCVars, tempCreds := emptyTempCredsVars, region := "" }

/-- Concrete import flags carrying only a VPC id. -/
def importVarsOnlyID : importVPCVars :=
  { ID := "vpc-123", PublicSubnetIDs := none, PrivateSubnetIDs := none }

/-- Selector oracles discovering exactly one public subnet. -/
def selOraclesOnePublic : EnvSelOracles :=
  { selectVPC := .ok "vpc-123",
    hasDNSSupport := fun _ => .ok true,
    publicSubnets := .ok ["subnet-a"],
    privateSubnets := .ok ["subnet-b", "subnet-c"] }

/-- Selector oracles discovering no public subnets and two private subnets. -/
def selOraclesNoPublic : EnvSelOracles :=
  { selectVPC := .ok "vpc-123",
    hasDNSSupport := fun _ => .ok true,
    publicSubnets := .error .notFound,
    privateSubnets := .ok ["subnet-b", "subnet-c"] }

/-- A concrete application record without DNS-delegation requirement. -/
def demoApp : Application :=
  { Name := "demo", AccountID := "1111", Domain := "", Tags := [], RequiresDNS := false }

/-- The environment descriptor the deployer reports after deployment. -/
def demoEnvRec : Environment :=
  { App := "demo", Name := "test", Region := "us-west-2", AccountID := "1111", Prod := true,
    RegistryURL := "reg", ExecutionRoleARN := "arn:exec", ManagerRoleARN := "arn:mgr",
    CustomConfig := none }

/-- Deploy collaborators whose deployer reports that the stack already
exists. -/
def alreadyExistsDeployOracles : EnvDeployOracles :=
  { identityGet := .ok { Account := "1111", RootUserARN := "arn:root" },
    stackExists := .ok false,
    roleTags := fun _ => .ok [],
    deployAndRender := fun _ => .stackAlreadyExists }

/-- Deploy collaborators whose deployer fails for a non-already-exists reason
and whose two environment roles carry the environment tag. -/
def failingDeployOracles : EnvDeployOracles :=
  { identityGet := .ok { Account := "1111", RootUserARN := "arn:root" },
    stackExists := .ok true,
    roleTags := fun _ => .ok [envTagKey],
    deployAndRender := fun _ => .failure "limit exceeded" }

/-- Execute collaborators for a fully successful default-configuration run. -/
def demoExecOracles : EnvExecOracles :=
  { getApplication := .ok demoApp,
    envIdentityGet := .ok { Account := "1111", RootUserARN := "arn:root" },
    delegateDNS := .ok (),
    addEnvToApp := .ok (),
    getAppResourcesBucket := .ok "stackset-bucket",
    newS3 := .ok (),
    uploadCustomResources := .ok [("CertificateValidationFunction", "https://bucket/url")],
    deploy := alreadyExistsDeployOracles,
    getEnvironment := .ok demoEnvRec,
    storeCreateEnvironment := fun _ => .ok () }

/-- The record `Execute` stamps and submits to the store in the
default-configuration run. -/
def stampedDemoRec : Environment :=
  { demoEnvRec with Prod := false, CustomConfig := none }

end Copilot

namespace Copilot

/-! ## Theorems -/

/-- C1: the claim asserts that `ListEnvironments` orders each of the two
prod/non-prod partitions lexicographically ascending by name.  The code
violates this for the non-production partition: the second `SliceStable`
comparator `!environments[i].Prod` ignores `j`, so Go's insertion sort bubbles
every non-production record to the front, reversing the name-sorted
non-production group.  Two non-production records named "alpha" and "beta"
come back as ["beta", "alpha"]. -/
theorem listEnvironments_nonprod_reversed :
    envAlpha.Prod = false ∧ envBeta.Prod = false ∧
    goStringLt envAlpha.Name envBeta.Name = true ∧
    listEnvironments [envAlpha, envBeta] = [envBeta, envAlpha] := by
  decide

/-- C2: a second `CreateEnvironment` with the same `(application, name)` key
after a prior successful one returns no error and leaves the store state (and
hence the first stored record) unchanged: the SSM already-exists signal is
suppressed and the second write never happens. -/
theorem createEnvironment_idempotent (st st' : StoreState) (e e2 : Environment)
    (h : createEnvironment st e = .ok st')
    (happ : e2.App = e.App) (hname : e2.Name = e.Name) :
    createEnvironment st' e2 = .ok st' := by
  by_cases hc : e.App ∈ st.apps
  · by_cases hmem : st.params.any (fun p => p.1 == envParamPath e.App e.Name) = true
    · have hst : st = st' := by
        simpa [createEnvironment, putParameter, hc, hmem] using h
      subst hst
      simp [createEnvironment, putParameter, happ, hname, hc, hmem]
    · have hst : st' = { st with params := st.params ++ [(envParamPath e.App e.Name, e)] } := by
        have h2 := h
        simp [createEnvironment, putParameter, hc, hmem] at h2
        exact h2.symm
      subst hst
      simp [createEnvironment, putParameter, happ, hname, hc]
  · simp [createEnvironment, hc] at h

/-- C2 witness: a concrete double-create.  The application "demo" exists, the
first create stores the record, the second create with the same key returns
success and the identical state. -/
theorem createEnvironment_idempotent_witness :
    createEnvironment
      { apps := ["demo"],
        params := [(envParamPath "demo" "test",
          { App := "demo", Name := "test", Region := "us-west-2", AccountID := "1111",
            Prod := false, RegistryURL := "", ExecutionRoleARN := "", ManagerRoleARN := "",
            CustomConfig := none })] }
      { App := "demo", Name := "test", Region := "eu-west-1", AccountID := "2222",
        Prod := true, RegistryURL := "", ExecutionRoleARN := "", ManagerRoleARN := "",
        CustomConfig := none } =
    .ok
      { apps := ["demo"],
        params := [(envParamPath "demo" "test",
          { App := "demo", Name := "test", Region := "us-west-2", AccountID := "1111",
            Prod := false, RegistryURL := "", ExecutionRoleARN := "", ManagerRoleARN := "",
            CustomConfig := none })] } :=
  createEnvironment_idempotent
    { apps := ["demo"], params := [] }
    { apps := ["demo"],
      params := [(envParamPath "demo" "test",
        { App := "demo", Name := "test", Region := "us-west-2", AccountID := "1111",
          Prod := false, RegistryURL := "", ExecutionRoleARN := "", ManagerRoleARN := "",
          CustomConfig := none })] }
    { App := "demo", Name := "test", Region := "us-west-2", AccountID := "1111",
      Prod := false, RegistryURL := "", ExecutionRoleARN := "", ManagerRoleARN := "",
      CustomConfig := none }
    { App := "demo", Name := "test", Region := "eu-west-1", AccountID := "2222",
      Prod := true, RegistryURL := "", ExecutionRoleARN := "", ManagerRoleARN := "",
      CustomConfig := none }
    rfl rfl rfl

/-- Helper: if the loader fails on a fragment that occurs in the list, the
attachment loop fails, whatever base template it starts from. -/
theorem parseWkldLoop_fail_of_mem {Tpl Tree : Type} (or : TplOracle Tpl Tree) (tn : String)
    (hfail : (or.parse tn (sprintf fmtWkldFragmentsCFTemplatePath [tn])).isOk = false) :
    ∀ (ts : List String) (tpl : Tpl), tn ∈ ts → (parseWkldLoop or tpl ts).isOk = false := by
  intro ts
  induction ts with
  | nil => intro tpl h; cases h
  | cons hd rest ih =>
    intro tpl hmem
    rcases List.mem_cons.mp hmem with heq | hrest
    · subst heq
      cases hp : or.parse tn (sprintf fmtWkldFragmentsCFTemplatePath [tn]) with
      | error e => simp [parseWkldLoop, hp, Except.isOk, Except.toBool]
      | ok t => rw [hp] at hfail; exact Bool.noConfusion hfail
    · cases hp : or.parse hd (sprintf fmtWkldFragmentsCFTemplatePath [hd]) with
      | error e => simp [parseWkldLoop, hp, Except.isOk, Except.toBool]
      | ok t =>
        cases ha : or.addParseTree tpl hd (or.tree t) with
        | error e => simp [parseWkldLoop, hp, ha, Except.isOk, Except.toBool]
        | ok t2 => simpa [parseWkldLoop, hp, ha] using ih t2 hrest

/-- Helper: a successful attachment loop parsed every fragment in its list. -/
theorem parseWkldLoop_ok_parse {Tpl Tree : Type} (or : TplOracle Tpl Tree) :
    ∀ (ts : List String) (tpl tpl' : Tpl), parseWkldLoop or tpl ts = .ok tpl' →
      ∀ tn ∈ ts, ∃ tr, or.parse tn (sprintf fmtWkldFragmentsCFTemplatePath [tn]) = .ok tr := by
  intro ts
  induction ts with
  | nil => intro tpl tpl' _ tn hmem; cases hmem
  | cons hd rest ih =>
    intro tpl tpl' h tn hmem
    cases hp : or.parse hd (sprintf fmtWkldFragmentsCFTemplatePath [hd]) with
    | error e => simp [parseWkldLoop, hp] at h
    | ok t =>
      cases ha : or.addParseTree tpl hd (or.tree t) with
      | error e => simp [parseWkldLoop, hp, ha] at h
      | ok t2 =>
        rcases List.mem_cons.mp hmem with heq | hrest
        · subst heq; exact ⟨t, hp⟩
        · exact ih t2 tpl' (by simpa [parseWkldLoop, hp, ha] using h) tn hrest

/-- C7: a render fails as a whole when loading or parsing any catalog fragment
fails (no content is produced), and a `Content` value is produced only when the
base template parsed, every catalog fragment was parsed and attached, and
template execution succeeded, the content being exactly the execution
output. -/
theorem parseWkld_all_or_nothing {Tpl Tree : Type} (or : TplOracle Tpl Tree)
    (name dir dataFmt : String) :
    (∀ tn, tn ∈ workloadCFTemplateFragmentNames →
        (or.parse tn (sprintf fmtWkldFragmentsCFTemplatePath [tn])).isOk = false →
        (parseWkld name dir dataFmt or).isOk = false) ∧
    (∀ c, parseWkld name dir dataFmt or = .ok c →
        (∀ tn ∈ workloadCFTemplateFragmentNames,
          ∃ tr, or.parse tn (sprintf fmtWkldFragmentsCFTemplatePath [tn]) = .ok tr) ∧
        ∃ b tplF, or.parse "base" (sprintf fmtWkldCFTemplatePath [dir, name]) = .ok b ∧
          parseWkldLoop or b workloadCFTemplateFragmentNames = .ok tplF ∧
          or.execute tplF = .ok c.buf) := by
  constructor
  · intro tn hmem hfail
    cases hb : or.parse "base" (sprintf fmtWkldCFTemplatePath [dir, name]) with
    | error e => simp [parseWkld, hb, Except.isOk, Except.toBool]
    | ok tpl =>
      have hloop := parseWkldLoop_fail_of_mem or tn hfail workloadCFTemplateFragmentNames tpl hmem
      cases hl : parseWkldLoop or tpl workloadCFTemplateFragmentNames with
      | error e => simp [parseWkld, hb, hl, Except.isOk, Except.toBool]
      | ok t2 => rw [hl] at hloop; exact Bool.noConfusion hloop
  · intro c hok
    cases hb : or.parse "base" (sprintf fmtWkldCFTemplatePath [dir, name]) with
    | error e => simp [parseWkld, hb] at hok
    | ok tpl =>
      cases hl : parseWkldLoop or tpl workloadCFTemplateFragmentNames with
      | error e => simp [parseWkld, hb, hl] at hok
      | ok t2 =>
        cases hx : or.execute t2 with
        | error e => simp [parseWkld, hb, hl, hx] at hok
        | ok out =>
          have hc : { buf := out : Content } = c := by
            simpa [parseWkld, hb, hl, hx] using hok
          refine ⟨fun tn hmem =>
            parseWkldLoop_ok_parse or workloadCFTemplateFragmentNames tpl t2 hl tn hmem,
            tpl, t2, rfl, hl, ?_⟩
          rw [hx, ← hc]

/-- C7 witness: with a loader that cannot find the "nlb" fragment (a catalog
member), the whole render of the load-balanced web service template fails. -/
theorem parseWkld_all_or_nothing_witness :
    "nlb" ∈ workloadCFTemplateFragmentNames ∧
    (parseWkld "lb-web" "services" "opts" nlbMissingTplOracle).isOk = false := by
  refine ⟨by decide, ?_⟩
  exact (parseWkld_all_or_nothing nlbMissingTplOracle "lb-web" "services" "opts").1
    "nlb" (by decide) rfl

/-- C4: for a workload of type "Load Balanced Web Service" placed on private
subnets with managed EFS creation requested, the EnvController parameter list
is exactly the load-balancer names, then the networking name, then the storage
name, in that fixed order. -/
theorem envControllerParameters_lbws_private_efs (o : WorkloadOpts) (s : StorageOpts)
    (hw : o.WorkloadType = "Load Balanced Web Service")
    (hn : o.Network.SubnetsType = PrivateSubnetsPlacement)
    (hs : o.Storage = some s) (hefs : s.requiresEFSCreation = true) :
    envControllerParameters o = ["ALBWorkloads,", "Aliases,", "NATWorkloads,", "EFSWorkloads,"] := by
  simp [envControllerParameters, hw, hn, hs, hefs]

/-- C4 witness: the concrete load-balanced, private-placement, managed-EFS
workload options produce the four names in the fixed order. -/
theorem envControllerParameters_lbws_private_efs_witness :
    envControllerParameters lbwsPrivateEFSOpts =
      ["ALBWorkloads,", "Aliases,", "NATWorkloads,", "EFSWorkloads,"] :=
  envControllerParameters_lbws_private_efs lbwsPrivateEFSOpts
    { Ephemeral := none, Volumes := [], MountPoints := [], EFSPerms := [],
      ManagedVolumeInfo := some { Name := some "fs", DirName := none, UID := none,
                                  GID := none } }
    rfl rfl rfl rfl

/-- C8: `Topic.ARN` equals the interpolation of partition, region, account,
application, environment, workload and topic name, in that positional order,
into the fixed pattern `arn:_:sns:_:_:_-_-_-_`. -/
theorem topic_ARN_fixed_pattern (t : Topic) :
    t.ARN = "arn:" ++ t.Partition ++ ":sns:" ++ t.Region ++ ":" ++ t.AccountID ++ ":" ++
      t.App ++ "-" ++ t.Env ++ "-" ++ t.Svc ++ "-" ++ stringValue t.Name := by
  apply String.ext
  have hp : snsARNPattern.data =
      ['a', 'r', 'n', ':', '%', 's', ':', 's', 'n', 's', ':', '%', 's', ':', '%', 's', ':',
       '%', 's', '-', '%', 's', '-', '%', 's', '-', '%', 's'] := rfl
  simp only [Topic.ARN, sprintf, hp, fmtChars, String.data_append]
  simp [String.singleton, List.append_assoc]

/-- Helper: the execution-role name is the stack name with the fixed suffix. -/
theorem sprintf_cfnExecutionRole (s : String) :
    sprintf "%s-CFNExecutionRole" [s] = s ++ "-CFNExecutionRole" := by
  have h1 : sprintf "%s-CFNExecutionRole" [s] =
      s ++ fmtChars ("-CFNExecutionRole" : String).data [] := rfl
  have h2 : fmtChars ("-CFNExecutionRole" : String).data [] = "-CFNExecutionRole" := by decide
  rw [h1, h2]

/-- Helper: the manager-role name is the stack name with the fixed suffix. -/
theorem sprintf_envManagerRole (s : String) :
    sprintf "%s-EnvManagerRole" [s] = s ++ "-EnvManagerRole" := by
  have h1 : sprintf "%s-EnvManagerRole" [s] =
      s ++ fmtChars ("-EnvManagerRole" : String).data [] := rfl
  have h2 : fmtChars ("-EnvManagerRole" : String).data [] = "-EnvManagerRole" := by decide
  rw [h1, h2]

/-- Helper: the two environment role names, expanded. -/
theorem envRoleNames_expand (app env : String) :
    envRoleNames app env =
      [nameForEnv app env ++ "-CFNExecutionRole", nameForEnv app env ++ "-EnvManagerRole"] := by
  simp [envRoleNames, sprintf_cfnExecutionRole, sprintf_envManagerRole]

/-- Helper: the two environment role names differ. -/
theorem envRoleNames_pairwise (app env : String) :
    nameForEnv app env ++ "-CFNExecutionRole" ≠ nameForEnv app env ++ "-EnvManagerRole" := by
  intro h
  have hd := congrArg String.data h
  rw [String.data_append, String.data_append] at hd
  have h3 : ("-CFNExecutionRole" : String).data = ("-EnvManagerRole" : String).data :=
    List.append_cancel_left hd
  exact absurd h3 (by decide)

/-- Helper: the best-effort role cleanup never invokes the deployer. -/
theorem tryDeletingEnvRoles_no_deploy (or : EnvDeployOracles) (app env : String) :
    ∀ e ∈ tryDeletingEnvRoles or app env, isDeployAttempt e = false := by
  intro e he
  unfold tryDeletingEnvRoles at he
  simp only [List.mem_flatMap, List.mem_cons] at he
  obtain ⟨r, _, he⟩ := he
  rcases he with rfl | he
  · rfl
  · by_cases ht : roleIsTagged or r = true
    · rw [if_pos ht] at he
      simp only [List.mem_singleton] at he
      subst he
      rfl
    · rw [if_neg ht] at he
      simp at he

/-- Helper: the events after the deployer invocation are exactly the suffix
following the `deployAttempt` marker, when no earlier event is the marker. -/
theorem eventsAfterDeploy_append (pre post : List EnvInitEvent)
    (h : ∀ e ∈ pre, isDeployAttempt e = false) :
    eventsAfterDeploy (pre ++ EnvInitEvent.deployAttempt :: post) = post := by
  induction pre with
  | nil => simp [eventsAfterDeploy, List.dropWhile, isDeployAttempt]
  | cons hd rest ih =>
    have hhd := h hd (List.mem_cons_self hd rest)
    have hrest : ∀ e ∈ rest, isDeployAttempt e = false :=
      fun e he => h e (List.mem_cons_of_mem hd he)
    have := ih hrest
    simpa [eventsAfterDeploy, List.dropWhile_cons, hhd] using this

/-- Helper: deletion-attempt counts in one role block of the cleanup trace. -/
theorem countDeleteRole_block (or : EnvDeployOracles) (rr r : String) :
    countDeleteRole (EnvInitEvent.listRoleTags rr ::
        (if roleIsTagged or rr = true then [EnvInitEvent.deleteRole rr] else [])) r =
      if rr = r ∧ roleIsTagged or rr = true then 1 else 0 := by
  by_cases ht : roleIsTagged or rr = true
  · by_cases he : rr = r
    · subst he
      simp [countDeleteRole, ht]
    · simp [countDeleteRole, ht, he]
  · simp [countDeleteRole, ht]

/-- Helper: the cleanup pass makes exactly one deletion attempt per tagged
environment role and none for any other role. -/
theorem countDeleteRole_tryDeleting (or : EnvDeployOracles) (app env r : String) :
    countDeleteRole (tryDeletingEnvRoles or app env) r =
      if r ∈ envRoleNames app env ∧ roleIsTagged or r = true then 1 else 0 := by
  have hexp := envRoleNames_expand app env
  have hne := envRoleNames_pairwise app env
  have hsplit : tryDeletingEnvRoles or app env =
      (EnvInitEvent.listRoleTags (nameForEnv app env ++ "-CFNExecutionRole") ::
        (if roleIsTagged or (nameForEnv app env ++ "-CFNExecutionRole") = true then
          [EnvInitEvent.deleteRole (nameForEnv app env ++ "-CFNExecutionRole")] else [])) ++
      (EnvInitEvent.listRoleTags (nameForEnv app env ++ "-EnvManagerRole") ::
        (if roleIsTagged or (nameForEnv app env ++ "-EnvManagerRole") = true then
          [EnvInitEvent.deleteRole (nameForEnv app env ++ "-EnvManagerRole")] else [])) := by
    rw [tryDeletingEnvRoles, hexp]
    simp
  rw [hsplit, hexp]
  have hadd : ∀ l1 l2 : List EnvInitEvent,
      countDeleteRole (l1 ++ l2) r = countDeleteRole l1 r + countDeleteRole l2 r := by
    intro l1 l2
    simp [countDeleteRole, List.countP_append]
  rw [hadd, countDeleteRole_block, countDeleteRole_block]
  by_cases he1 : nameForEnv app env ++ "-CFNExecutionRole" = r
  · subst he1
    have he2 : ¬(nameForEnv app env ++ "-EnvManagerRole" =
        nameForEnv app env ++ "-CFNExecutionRole") := fun h => hne h.symm
    by_cases ht1 : roleIsTagged or (nameForEnv app env ++ "-CFNExecutionRole") = true
    · simp [he2, ht1]
    · simp [he2, ht1]
  · by_cases he2 : nameForEnv app env ++ "-EnvManagerRole" = r
    · subst he2
      by_cases ht2 : roleIsTagged or (nameForEnv app env ++ "-EnvManagerRole") = true
      · simp [hne, ht2]
      · simp [hne, ht2]
    · have hm1 : ¬(r = nameForEnv app env ++ "-CFNExecutionRole") := fun h => he1 h.symm
      have hm2 : ¬(r = nameForEnv app env ++ "-EnvManagerRole") := fun h => he2 h.symm
      simp [he1, he2, hm1, hm2]

/-- C3: under an identity lookup and stack-existence check that answer, a
deployment failure that is not stack-already-exists propagates the error after
exactly one best-effort deletion attempt per tagged environment role (and no
deletion of any other role); a stack-already-exists outcome yields success
with zero post-deploy cleanup attempts, and the surrounding `Execute` flow
then proceeds to record persistence. -/
theorem deployEnv_cleanup_policy (o : initEnvVars) (or : EnvDeployOracles) (app : Application)
    (urls : List (String × String)) (c : Caller) (ex : Bool)
    (hid : or.identityGet = .ok c) (hex : or.stackExists = .ok ex) :
    (∀ msg, (∀ inp, or.deployAndRender inp = .failure msg) →
        (deployEnv o or app urls).1 = .error msg ∧
        eventsAfterDeploy (deployEnv o or app urls).2 =
          tryDeletingEnvRoles or o.appName o.name ∧
        (∀ r, countDeleteRole (eventsAfterDeploy (deployEnv o or app urls).2) r =
            if r ∈ envRoleNames o.appName o.name ∧ roleIsTagged or r = true then 1 else 0)) ∧
    ((∀ inp, or.deployAndRender inp = .stackAlreadyExists) →
        (deployEnv o or app urls).1 = .ok () ∧
        eventsAfterDeploy (deployEnv o or app urls).2 = []) ∧
    (∀ (exor : EnvExecOracles) (env : Environment) (bucket : String) (ec : Caller),
        (∀ inp, or.deployAndRender inp = .stackAlreadyExists) →
        exor.deploy = or → exor.getApplication = .ok app → exor.envIdentityGet = .ok ec →
        app.RequiresDNS = false → exor.addEnvToApp = .ok () →
        exor.getAppResourcesBucket = .ok bucket → exor.newS3 = .ok () →
        exor.uploadCustomResources = .ok urls → exor.getEnvironment = .ok env →
        (∀ envr, exor.storeCreateEnvironment envr = .ok ()) →
        (executeEnvInit o exor).1 = .ok () ∧ (executeEnvInit o exor).2.2.isSome = true) := by
  have hpre : cleanUpDanglingRoles or o.appName o.name =
      (.ok (), EnvInitEvent.existsCheck (nameForEnv o.appName o.name) ::
        (if ex then [] else tryDeletingEnvRoles or o.appName o.name)) := by
    cases ex <;> simp [cleanUpDanglingRoles, hex]
  have hprene : ∀ e ∈ (EnvInitEvent.existsCheck (nameForEnv o.appName o.name) ::
      (if ex then [] else tryDeletingEnvRoles or o.appName o.name)),
      isDeployAttempt e = false := by
    intro e he
    rcases List.mem_cons.mp he with rfl | he
    · rfl
    · cases ex
      · simp at he
        exact tryDeletingEnvRoles_no_deploy or o.appName o.name e he
      · simp at he
  refine ⟨?_, ?_, ?_⟩
  · intro msg hfail
    have hde : deployEnv o or app urls =
        (.error msg,
          (EnvInitEvent.existsCheck (nameForEnv o.appName o.name) ::
            (if ex then [] else tryDeletingEnvRoles or o.appName o.name)) ++
          EnvInitEvent.deployAttempt :: tryDeletingEnvRoles or o.appName o.name) := by
      simp [deployEnv, hid, hpre, hfail]
    rw [hde]
    refine ⟨rfl, ?_, ?_⟩
    · exact eventsAfterDeploy_append _ _ hprene
    · intro r
      rw [eventsAfterDeploy_append _ _ hprene]
      exact countDeleteRole_tryDeleting or o.appName o.name r
  · intro hae
    have hde : deployEnv o or app urls =
        (.ok (),
          (EnvInitEvent.existsCheck (nameForEnv o.appName o.name) ::
            (if ex then [] else tryDeletingEnvRoles or o.appName o.name)) ++
          EnvInitEvent.deployAttempt :: []) := by
      simp [deployEnv, hid, hpre, hae]
    rw [hde]
    exact ⟨rfl, eventsAfterDeploy_append _ _ hprene⟩
  · intro exor env bucket ec hae hdep hga hei hdns hadd hbkt hs3 hup hge hstore
    have hde : deployEnv o or app urls =
        (.ok (),
          (EnvInitEvent.existsCheck (nameForEnv o.appName o.name) ::
            (if ex then [] else tryDeletingEnvRoles or o.appName o.name)) ++
          EnvInitEvent.deployAttempt :: []) := by
      simp [deployEnv, hid, hpre, hae]
    simp [executeEnvInit, hga, hei, hdns, hadd, hbkt, hs3, hup, hdep, hde, hge, hstore]

/-- C3 witness: a failing deployer on a fresh attempt propagates the error
after exactly one deletion attempt for the tagged execution role; a
stack-already-exists outcome succeeds with zero cleanup attempts. -/
theorem deployEnv_cleanup_policy_witness :
    (deployEnv defaultCfgVars failingDeployOracles demoApp []).1 = .error "limit exceeded" ∧
    countDeleteRole
      (eventsAfterDeploy (deployEnv defaultCfgVars failingDeployOracles demoApp []).2)
      (sprintf "%s-CFNExecutionRole" [nameForEnv "demo" "test"]) = 1 ∧
    (deployEnv defaultCfgVars alreadyExistsDeployOracles demoApp []).1 = .ok () ∧
    eventsAfterDeploy (deployEnv defaultCfgVars alreadyExistsDeployOracles demoApp []).2 = [] := by
  have hf := (deployEnv_cleanup_policy defaultCfgVars failingDeployOracles demoApp []
    { Account := "1111", RootUserARN := "arn:root" } true rfl rfl).1 "limit exceeded"
    (fun _ => rfl)
  have ha := (deployEnv_cleanup_policy defaultCfgVars alreadyExistsDeployOracles demoApp []
    { Account := "1111", RootUserARN := "arn:root" } false rfl rfl).2.1 (fun _ => rfl)
  refine ⟨hf.1, ?_, ha.1, ha.2⟩
  rw [hf.2.2 (sprintf "%s-CFNExecutionRole" [nameForEnv "demo" "test"])]
  decide

/-- C5: when both the import-VPC group and the adjust-VPC group are set,
`validateCustomizedResources` fails with the mutual-exclusion configuration
error (a pure flag check that consults no collaborator), the whole `Validate`
phase fails whatever the name validator and duplicate check answer, and the
command pipeline's result does not depend on the orchestrator continuation, so
no such configuration reaches the orchestrator. -/
theorem validate_rejects_both_vpc_groups (o : initEnvVars)
    (h1 : o.importVPC.isSet = true) (h2 : o.adjustVPC.isSet = true) :
    validateCustomizedResources o =
      .error "cannot specify both import vpc flags and configure vpc flags" ∧
    (∀ nameOK dupCheck, (validateEnvInit o nameOK dupCheck).isOk = false) ∧
    (∀ nameOK dupCheck rest rest2,
        runEnvInit o nameOK dupCheck rest = runEnvInit o nameOK dupCheck rest2 ∧
        (runEnvInit o nameOK dupCheck rest).isOk = false) := by
  have hv : validateCustomizedResources o =
      .error "cannot specify both import vpc flags and configure vpc flags" := by
    simp [validateCustomizedResources, h1, h2]
  have hval : ∀ nameOK dupCheck, (validateEnvInit o nameOK dupCheck).isOk = false := by
    intro nameOK dupCheck
    unfold validateEnvInit
    cases hpre : (if o.name != "" then
          match nameOK o.name with
          | .error e => Except.error e
          | .ok _ => dupCheck
         else Except.ok ()) with
    | error e => rfl
    | ok u => simp [hv, Except.isOk, Except.toBool]
  refine ⟨hv, hval, ?_⟩
  intro nameOK dupCheck rest rest2
  cases hr : validateEnvInit o nameOK dupCheck with
  | error e => simp [runEnvInit, hr, Except.isOk, Except.toBool]
  | ok u =>
    have hcontra := hval nameOK dupCheck
    rw [hr] at hcontra
    exact Bool.noConfusion hcontra

/-- C5 witness: concrete flags with both groups set are rejected by the pure
flag check, and validation fails as a whole. -/
theorem validate_rejects_both_vpc_groups_witness :
    validateCustomizedResources bothVPCFlagsVars =
      .error "cannot specify both import vpc flags and configure vpc flags" ∧
    (validateEnvInit bothVPCFlagsVars (fun _ => Except.ok ()) (Except.ok ())).isOk = false := by
  have h := validate_rejects_both_vpc_groups bothVPCFlagsVars (by decide) (by decide)
  exact ⟨h.1, h.2.1 _ _⟩

/-- C6: in import-mode resolution with a chosen VPC that has DNS support and
no subnet flags given: a public-subnet selection of exactly one fails;
discovering zero public subnets degrades to a warning and resolution
continues to a successful result; discovering zero private subnets fails; a
private-subnet selection of exactly one fails. -/
theorem askImportResources_subnet_policy (v : importVPCVars) (or : EnvSelOracles)
    (hid : (v.ID == "") = false) (hdns : or.hasDNSSupport v.ID = .ok true)
    (hpub : v.PublicSubnetIDs = none) (hpriv : v.PrivateSubnetIDs = none) :
    (∀ s, or.publicSubnets = .ok [s] →
        (askImportResources v or).1 = .error
          "select public subnets: at least two public subnets must be selected to enable Load Balancing") ∧
    (∀ l, or.publicSubnets = .error .notFound → or.privateSubnets = .ok l →
        ¬l.length < 2 →
        askImportResources v or =
          (.ok { v with PublicSubnetIDs := none, PrivateSubnetIDs := some l },
            [.noSubnetsFoundInVPC v.ID])) ∧
    (∀ l, or.publicSubnets = .ok l → (l.length == 1) = false →
        or.privateSubnets = .error .notFound →
        (askImportResources v or).1 = .error "select private subnets: no subnets found") ∧
    (∀ s, or.publicSubnets = .error .notFound → or.privateSubnets = .ok [s] →
        (askImportResources v or).1 = .error
          "select private subnets: at least two private subnets must be selected") := by
  refine ⟨?_, ?_, ?_, ?_⟩
  · intro s hps
    simp [askImportResources, hid, hdns, hpub, hpriv, hps]
  · intro l hps hpriv2 hlen
    simp [askImportResources, hid, hdns, hpub, hpriv, hps, hpriv2, hlen]
  · intro l hps hlen hpriv2
    simp [askImportResources, hid, hdns, hpub, hpriv, hps, hlen, hpriv2, subnetSelErrMsg]
  · intro s hps hpriv2
    simp [askImportResources, hid, hdns, hpub, hpriv, hps, hpriv2]

/-- C6 witness: with only a VPC id given, a one-subnet public selection fails,
while a no-public-subnets discovery warns and resolution succeeds with the two
private subnets. -/
theorem askImportResources_subnet_policy_witness :
    (askImportResources importVarsOnlyID selOraclesOnePublic).1 = .error
      "select public subnets: at least two public subnets must be selected to enable Load Balancing" ∧
    askImportResources importVarsOnlyID selOraclesNoPublic =
      (.ok { ID := "vpc-123", PublicSubnetIDs := none,
             PrivateSubnetIDs := some ["subnet-b", "subnet-c"] },
        [.noSubnetsFoundInVPC "vpc-123"]) := by
  constructor
  · exact (askImportResources_subnet_policy importVarsOnlyID selOraclesOnePublic
      rfl rfl rfl rfl).1 "subnet-a" rfl
  · exact (askImportResources_subnet_policy importVarsOnlyID selOraclesNoPublic
      rfl rfl rfl rfl).2.1 ["subnet-b", "subnet-c"] rfl rfl (by decide)

/-- C9: `NewCustomizeEnv` returns nil exactly when both arguments are nil, a
non-nil result carries at least one sub-configuration, and every record that
`Execute` submits to the store carries exactly
`NewCustomizeEnv (importVPCConfig, adjustVPCConfig)` as its custom config — so
a default-configuration run records nil, and any non-nil recorded config has a
populated sub-configuration. -/
theorem newCustomizeEnv_record_invariant :
    (∀ (i : Option ImportVPC) (a : Option AdjustVPC),
        (NewCustomizeEnv i a = none ↔ i = none ∧ a = none) ∧
        ∀ c, NewCustomizeEnv i a = some c →
          (c.ImportVPC.isSome || c.VPCConfig.isSome) = true) ∧
    (∀ (o : initEnvVars) (exor : EnvExecOracles) (envr : Environment),
        (executeEnvInit o exor).2.2 = some envr →
        envr.CustomConfig = NewCustomizeEnv (importVPCConfig o) (adjustVPCConfig o) ∧
        (o.defaultConfig = true → envr.CustomConfig = none) ∧
        ∀ c, envr.CustomConfig = some c →
          (c.ImportVPC.isSome || c.VPCConfig.isSome) = true) := by
  have hpart1 : ∀ (i : Option ImportVPC) (a : Option AdjustVPC),
      (NewCustomizeEnv i a = none ↔ i = none ∧ a = none) ∧
      ∀ c, NewCustomizeEnv i a = some c →
        (c.ImportVPC.isSome || c.VPCConfig.isSome) = true := by
    intro i a
    constructor
    · unfold NewCustomizeEnv
      by_cases h : i = none ∧ a = none
      · simp [h]
      · simp [h]
    · intro c hc
      unfold NewCustomizeEnv at hc
      by_cases h : i = none ∧ a = none
      · rw [if_pos h] at hc
        exact absurd hc (by simp)
      · rw [if_neg h] at hc
        have hc2 : { ImportVPC := i, VPCConfig := a : CustomizeEnv } = c :=
          Option.some.inj hc
        rw [← hc2]
        cases i <;> cases a <;> simp_all
  refine ⟨hpart1, ?_⟩
  intro o exor envr hpers
  unfold executeEnvInit at hpers
  repeat' split at hpers
  all_goals simp at hpers
  subst hpers
  refine ⟨rfl, ?_, ?_⟩
  · intro hd
    simp [importVPCConfig, adjustVPCConfig, NewCustomizeEnv, hd]
  · intro c hc
    exact (hpart1 (importVPCConfig o) (adjustVPCConfig o)).2 c (by simpa using hc)

/-- C9 witness: in a concrete default-configuration run, the record submitted
to the store is the deployer's descriptor with the production flag stamped
false and a nil custom config. -/
theorem newCustomizeEnv_record_invariant_witness :
    (executeEnvInit defaultCfgVars demoExecOracles).2.2 = some stampedDemoRec ∧
    stampedDemoRec.CustomConfig = none := by
  have hpers : (executeEnvInit defaultCfgVars demoExecOracles).2.2 = some stampedDemoRec := rfl
  exact ⟨hpers,
    (newCustomizeEnv_record_invariant.2 defaultCfgVars demoExecOracles stampedDemoRec
      hpers).2.1 rfl⟩

/-- C10: with the default-configuration flag set, any set import or adjust
field makes validation fail with a configuration error, and both
`importVPCConfig` and `adjustVPCConfig` return nil regardless of the
import/adjust field values. -/
theorem defaultConfig_excludes_vpc_flags (o : initEnvVars) (hd : o.defaultConfig = true) :
    ((o.importVPC.isSet || o.adjustVPC.isSet) = true →
        (validateCustomizedResources o).isOk = false) ∧
    importVPCConfig o = none ∧ adjustVPCConfig o = none := by
  refine ⟨?_, by simp [importVPCConfig, hd], by simp [adjustVPCConfig, hd]⟩
  intro hset
  unfold validateCustomizedResources
  by_cases hboth : (o.importVPC.isSet && o.adjustVPC.isSet) = true
  · rw [if_pos hboth]
    rfl
  · rw [if_neg hboth, if_pos (by rw [hset, hd]; rfl)]
    rfl

/-- C10 witness: concrete flags with default-config and an import id set fail
validation, and both derived configs are nil. -/
theorem defaultConfig_excludes_vpc_flags_witness :
    (validateCustomizedResources defaultWithImportVars).isOk = false ∧
    importVPCConfig defaultWithImportVars = none ∧
    adjustVPCConfig defaultWithImportVars = none := by
  have h := defaultConfig_excludes_vpc_flags defaultWithImportVars rfl
  exact ⟨h.1 (by decide), h.2.1, h.2.2⟩

end Copilot
